import Mathlib

/-!
Verification development for the tornwamp pub/sub topic engine
(`tornwamp/topic/__init__.py`): the `TopicsManager` registry, per-topic
subscriber/publisher bookkeeping, and the redis bridge used to fan a topic
out across broker processes.

Python dicts are embedded as association lists with unique keys: lookup
returns the first matching entry, insertion updates an existing key in
place (preserving its position) and otherwise appends, erasure filters the
key out.  Coroutines are embedded as pure functions returning the mutated
state together with the broker calls they issued and the exception they
raised, if any; Python's in-place mutation of shared objects is made
explicit by threading the registry and the connection table through every
operation.
-/

abbrev TopicName := String
abbrev SubscriptionId := Nat
abbrev ConnId := Nat
abbrev NodeId := String
abbrev RedisParams := String

/-- First-match lookup in an association list (Python `dict.get` / `dict[k]`). -/
def lookupA {α β : Type} [DecidableEq α] : List (α × β) → α → Option β
  | [], _ => none
  | (k, v) :: rest, key => if k = key then some v else lookupA rest key

/-- Update-in-place-or-append (Python `dict[k] = v`). -/
def insertA {α β : Type} [DecidableEq α] : List (α × β) → α → β → List (α × β)
  | [], key, val => [(key, val)]
  | (k, v) :: rest, key, val =>
      if k = key then (key, val) :: rest else (k, v) :: insertA rest key val

/-- Remove a key (Python `dict.pop(k, None)` / `del dict[k]`). -/
def eraseA {α β : Type} [DecidableEq α] (m : List (α × β)) (key : α) : List (α × β) :=
  m.filter (fun p => p.1 ≠ key)

/-- Exceptions and error kinds surfaced by the embedded operations.
`redisUnavailable` is `RedisUnavailableError`; the others are the Python
exceptions the code can raise (`KeyError` from `dict[k]` / `dict.pop(k)`,
`AttributeError` from calling a method on `None`, `AssertionError` from
`assert`). -/
inductive Err where
  | redisUnavailable
  | keyError
  | attributeError
  | assertionError
deriving DecidableEq

/-- Equality of embedded call results (used to evaluate theorems on
concrete inputs). -/
instance {e a : Type} [DecidableEq e] [DecidableEq a] : DecidableEq (Except e a) := fun x y =>
  match x, y with
  | Except.error u, Except.error v =>
      if h : u = v then Decidable.isTrue (congrArg Except.error h)
      else Decidable.isFalse (fun he => h (by injection he))
  | Except.error _, Except.ok _ => Decidable.isFalse (fun he => Except.noConfusion he)
  | Except.ok _, Except.error _ => Decidable.isFalse (fun he => Except.noConfusion he)
  | Except.ok u, Except.ok v =>
      if h : u = v then Decidable.isTrue (congrArg Except.ok h)
      else Decidable.isFalse (fun he => h (by injection he))

/-- External collaborator `Connection` (its module is outside the sources).
Modelled from the spec: it holds a reverse index
`topics = \x7brole: \x7btopicName: subscriptionId\x7d\x7d` and a closable
websocket transport. -/
structure Connection where
  subscriberTopics : List (TopicName × SubscriptionId)
  publisherTopics : List (TopicName × SubscriptionId)
  websocketOpen : Bool
deriving DecidableEq

/-- Modelled from the spec: `Connection.add_subscription_channel(id, topicName)`
records the subscription in the connection's reverse index. -/
def Connection.add_subscription_channel (c : Connection) (sid : SubscriptionId)
    (tn : TopicName) : Connection :=
  { c with subscriberTopics := insertA c.subscriberTopics tn sid }

/-- Modelled from the spec: `Connection.remove_subscription_channel(topicName)`
clears the reverse-index entry for the topic. -/
def Connection.remove_subscription_channel (c : Connection) (tn : TopicName) : Connection :=
  { c with subscriberTopics := eraseA c.subscriberTopics tn }

/-- Modelled from the spec: `Connection.add_publishing_channel(id, topicName)`. -/
def Connection.add_publishing_channel (c : Connection) (sid : SubscriptionId)
    (tn : TopicName) : Connection :=
  { c with publisherTopics := insertA c.publisherTopics tn sid }

/-- Modelled from the spec: `Connection.remove_publishing_channel(topicName)`. -/
def Connection.remove_publishing_channel (c : Connection) (tn : TopicName) : Connection :=
  { c with publisherTopics := eraseA c.publisherTopics tn }

/-- Modelled from the spec: forcibly closing the connection's transport
(`connection._websocket.close()`). -/
def Connection.closeWebsocket (c : Connection) : Connection :=
  { c with websocketOpen := false }

/-- State of `Topic._subscriber_connection`: `absent` is the Python `None`;
`present b` is an existing `tornadis.PubSubClient` object whose
`is_connected()` returns `b`. -/
inductive SubChannel where
  | absent
  | present (connected : Bool)
deriving DecidableEq

/-- The per-name topic state of class `Topic`.  `publisherConnection`
mirrors `_publisher_connection is not None`. -/
structure Topic where
  name : TopicName
  subscribers : List (SubscriptionId × ConnId)
  publishers : List (SubscriptionId × ConnId)
  redisParams : Option RedisParams
  publisherConnection : Bool
  subscriberConnection : SubChannel
deriving DecidableEq

/-- `Topic.__init__(name, redis)`: the publisher connection is created
exactly when redis parameters are given; the subscriber connection starts
as `None`. -/
def Topic.init (name : TopicName) (redis : Option RedisParams) : Topic :=
  { name := name
    subscribers := []
    publishers := []
    redisParams := redis
    publisherConnection := redis.isSome
    subscriberConnection := SubChannel.absent }

/-- One call the bridge makes against the external broker. -/
inductive BrokerCall where
  | connect
  | subscribe (channel : TopicName)
  | publish (channel : TopicName) (payload : String)
deriving DecidableEq

/-- Broker availability during one embedded operation: whether
`PubSubClient.connect()`, `pubsub_subscribe`, and `PUBLISH` succeed. -/
structure BrokerEnv where
  connectOk : Bool
  subscribeOk : Bool
  publishOk : Bool
deriving DecidableEq

/-- External collaborator `BroadcastMessage` (module `tornwamp.messages` is
outside the sources).  Modelled from the spec: the envelope carries the
topic name, the event payload, the origin connection id (local echo key)
and the origin node id (cross-node echo key); decoding is abstracted as
byte-exact round-tripping, so the receive loop is given the decoded
structure directly. -/
structure BroadcastMessage where
  topic_name : TopicName
  event_payload : String
  publisher_connection_id : Option ConnId
  publisher_node_id : NodeId
deriving DecidableEq

/-- Modelled from the spec: `customize.deliver_event_messages(topic, msg,
publisher_connection_id)` (module `tornwamp.topic.customize` is outside the
sources) delivers the event message synchronously to every current
subscriber except the one whose connection identity equals the given
origin connection id; a `none` origin excludes nobody.  The result is the
ordered list of (connection, payload) deliveries performed. -/
def deliver_event_messages (subs : List (SubscriptionId × ConnId)) (payload : String)
    (excludeConn : Option ConnId) : List (ConnId × String) :=
  (subs.filter (fun p => excludeConn ≠ some p.2)).map (fun p => (p.2, payload))

/-- `Topic.publish(broadcast_msg)`: what one call performs.  `deliveries`
is the synchronous in-process delivery performed first; `calls` are the
broker interactions performed after it; `suspends` records whether the
coroutine reached a yield point. -/
structure PublishResult where
  deliveries : List (ConnId × String)
  calls : List BrokerCall
  suspends : Bool
  error : Option Err
deriving DecidableEq

/-- `Topic.publish`: deliver locally first via
`customize.deliver_event_messages` (excluding the origin connection), then,
only when a publisher connection exists, `yield PUBLISH` and raise
`RedisUnavailableError` on a connection error. -/
def Topic.publish (env : BrokerEnv) (t : Topic) (msg : BroadcastMessage) : PublishResult :=
  let localDeliveries :=
    deliver_event_messages t.subscribers msg.event_payload msg.publisher_connection_id
  if t.publisherConnection then
    { deliveries := localDeliveries
      calls := [BrokerCall.publish t.name msg.event_payload]
      suspends := true
      error := if env.publishOk then none else some Err.redisUnavailable }
  else
    { deliveries := localDeliveries
      calls := []
      suspends := false
      error := none }

/-- Result of one `Topic.add_subscriber` coroutine call: the mutated topic
(mutation persists even when the call raises), the broker calls issued, the
exception raised if any, and whether the receive loop was armed
(`_register_redis_callback` reached). -/
structure SubscribeResult where
  topic : Topic
  calls : List BrokerCall
  error : Option Err
  armed : Bool
deriving DecidableEq

/-- `Topic.add_subscriber(subscription_id, connection)`: when redis
parameters exist and `_subscriber_connection` is `None`, create the pubsub
client (the attribute is set before any broker call, and is never reset on
failure), `yield connect()` — raising `RedisUnavailableError` on failure —
then `yield pubsub_subscribe(name)` — raising `RedisUnavailableError` both
on the tornadis `TypeError` bug path and on a falsy result — and on
success arm the receive loop.  Only then is the subscriber registered
locally; any raise skips the registration. -/
def Topic.add_subscriber (env : BrokerEnv) (t : Topic) (sid : SubscriptionId)
    (cid : ConnId) : SubscribeResult :=
  match t.redisParams, t.subscriberConnection with
  | some _, SubChannel.absent =>
      if env.connectOk then
        if env.subscribeOk then
          { topic := { t with subscriberConnection := SubChannel.present true
                              subscribers := insertA t.subscribers sid cid }
            calls := [BrokerCall.connect, BrokerCall.subscribe t.name]
            error := none
            armed := true }
        else
          { topic := { t with subscriberConnection := SubChannel.present true }
            calls := [BrokerCall.connect, BrokerCall.subscribe t.name]
            error := some Err.redisUnavailable
            armed := false }
      else
        { topic := { t with subscriberConnection := SubChannel.present false }
          calls := [BrokerCall.connect]
          error := some Err.redisUnavailable
          armed := false }
  | _, _ =>
      { topic := { t with subscribers := insertA t.subscribers sid cid }
        calls := []
        error := none
        armed := false }

/-- Iterate `Topic.add_subscriber` over a list of subscription requests,
accumulating the broker calls issued (errors propagate to each caller but
do not stop later independent subscribe calls). -/
def Topic.subscribe_many (env : BrokerEnv) (t : Topic) :
    List (SubscriptionId × ConnId) → Topic × List BrokerCall
  | [] => (t, [])
  | (sid, cid) :: rest =>
      let r := Topic.add_subscriber env t sid cid
      let next := Topic.subscribe_many env r.topic rest
      (next.1, r.calls ++ next.2)

/-- Number of broker SUBSCRIBE commands in a call trace. -/
def countSubscribeCalls (calls : List BrokerCall) : Nat :=
  calls.countP (fun c => match c with | BrokerCall.subscribe _ => true | _ => false)

/-- Update the connection stored under `cid`, if present (Python mutates
the object in place through the reference held in the topic maps). -/
def modifyConn (conns : List (ConnId × Connection)) (cid : ConnId)
    (f : Connection → Connection) : List (ConnId × Connection) :=
  match lookupA conns cid with
  | some c => insertA conns cid (f c)
  | none => conns

/-- `Topic.remove_subscriber(subscriber_id)`: `pop` the subscriber
(KeyError when absent), clear its reverse-index entry for this topic, and
return it. -/
def Topic.remove_subscriber (t : Topic) (conns : List (ConnId × Connection))
    (sid : SubscriptionId) : Except Err (Topic × List (ConnId × Connection) × ConnId) :=
  match lookupA t.subscribers sid with
  | none => Except.error Err.keyError
  | some cid =>
      Except.ok ({ t with subscribers := eraseA t.subscribers sid },
        modifyConn conns cid (fun c => c.remove_subscription_channel t.name), cid)

/-- The loop body of `Topic._drop_subscribers`, iterating over a snapshot
of the subscriber ids: remove each subscriber and close its websocket.
(The KeyError branch is unreachable on faithful states, where dict keys
are unique.) -/
def Topic.drop_loop (t : Topic) (conns : List (ConnId × Connection)) :
    List SubscriptionId → Except Err (Topic × List (ConnId × Connection))
  | [] => Except.ok (t, conns)
  | sid :: rest =>
      match Topic.remove_subscriber t conns sid with
      | Except.error e => Except.error e
      | Except.ok (t', conns', cid) =>
          Topic.drop_loop t' (modifyConn conns' cid Connection.closeWebsocket) rest

/-- `Topic._drop_subscribers()`: drop every current subscriber and close
each one's websocket transport. -/
def Topic.drop_subscribers (t : Topic) (conns : List (ConnId × Connection)) :
    Except Err (Topic × List (ConnId × Connection)) :=
  Topic.drop_loop t conns (t.subscribers.map Prod.fst)

/-- `Topic._on_event_message(topic_name, raw_msg)` after decoding: assert
the decoded topic name matches the channel (AssertionError on mismatch);
deliver to every local subscriber with no exclusion unless the message
originated from this node. -/
def Topic.on_event_message (localNode : NodeId) (t : Topic) (channel : TopicName)
    (msg : BroadcastMessage) : Except Err (List (ConnId × String)) :=
  if channel = msg.topic_name then
    if msg.publisher_node_id = localNode then
      Except.ok []
    else
      Except.ok (deliver_event_messages t.subscribers msg.event_payload none)
  else
    Except.error Err.assertionError

/-- The value produced by one `pubsub_pop_message` future, as consumed by
`Topic._on_redis_message`: a tornadis connection/client error, a decoded
triple `(type, channel, message)`, or `None` on timeout. -/
inductive PopResult where
  | connectionError
  | clientError
  | message (type_ : String) (channel : TopicName) (msg : BroadcastMessage)
  | empty
deriving DecidableEq

/-- Observable outcome of one receive-loop callback invocation:
the mutated topic and connection table, the local deliveries performed,
whether the next receive was armed before returning, and the exception
that escaped the callback, if any. -/
structure LoopStep where
  topic : Topic
  conns : List (ConnId × Connection)
  deliveries : List (ConnId × String)
  rearmed : Bool
  fatal : Option Err
deriving DecidableEq

/-- `Topic._register_redis_callback()`: arm the next `pubsub_pop_message`
when the subscriber connection exists and is connected; otherwise drop all
subscribers. -/
def Topic.register_redis_callback (t : Topic) (conns : List (ConnId × Connection)) :
    Except Err (Topic × List (ConnId × Connection) × Bool) :=
  match t.subscriberConnection with
  | SubChannel.present true => Except.ok (t, conns, true)
  | _ =>
      match Topic.drop_subscribers t conns with
      | Except.error e => Except.error e
      | Except.ok (t', conns') => Except.ok (t', conns', false)

/-- `Topic._on_redis_message(fut)`: on a tornadis connection/client error,
drop every subscriber (the underlying client is no longer connected, which
the model records in `subscriberConnection`; the attribute itself is NOT
reset to `None`).  On a message, re-arm the next receive FIRST, assert the
pop type is "message", then run `_on_event_message`.  On `None` (timeout),
just re-arm.  `fatal` holds any exception escaping the callback. -/
def Topic.on_redis_message (localNode : NodeId) (t : Topic)
    (conns : List (ConnId × Connection)) (r : PopResult) : LoopStep :=
  match r with
  | PopResult.connectionError =>
      match Topic.drop_subscribers
          { t with subscriberConnection := SubChannel.present false } conns with
      | Except.ok (t', conns') =>
          { topic := t', conns := conns', deliveries := [], rearmed := false, fatal := none }
      | Except.error e =>
          { topic := t, conns := conns, deliveries := [], rearmed := false, fatal := some e }
  | PopResult.clientError =>
      match Topic.drop_subscribers
          { t with subscriberConnection := SubChannel.present false } conns with
      | Except.ok (t', conns') =>
          { topic := t', conns := conns', deliveries := [], rearmed := false, fatal := none }
      | Except.error e =>
          { topic := t, conns := conns, deliveries := [], rearmed := false, fatal := some e }
  | PopResult.empty =>
      match Topic.register_redis_callback t conns with
      | Except.ok (t', conns', armed) =>
          { topic := t', conns := conns', deliveries := [], rearmed := armed, fatal := none }
      | Except.error e =>
          { topic := t, conns := conns, deliveries := [], rearmed := false, fatal := some e }
  | PopResult.message ty ch msg =>
      match Topic.register_redis_callback t conns with
      | Except.ok (t', conns', armed) =>
          if ty = "message" then
            match Topic.on_event_message localNode t' ch msg with
            | Except.ok ds =>
                { topic := t', conns := conns', deliveries := ds, rearmed := armed, fatal := none }
            | Except.error e =>
                { topic := t', conns := conns', deliveries := [], rearmed := armed,
                  fatal := some e }
          else
            { topic := t', conns := conns', deliveries := [], rearmed := armed,
              fatal := some Err.assertionError }
      | Except.error e =>
          { topic := t, conns := conns, deliveries := [], rearmed := false, fatal := some e }

/-- The process state the manager operations act on: the topics registry
(the `TopicsManager` dict) and the table of live connection objects,
keyed by connection identity. -/
structure World where
  topics : List (TopicName × Topic)
  conns : List (ConnId × Connection)
deriving DecidableEq

/-- Result of one `TopicsManager.add_subscriber` coroutine call. -/
structure MgrSubResult where
  world : World
  calls : List BrokerCall
  error : Option Err
  returnedId : Option SubscriptionId
deriving DecidableEq

/-- `TopicsManager.add_subscriber(topic_name, connection, subscription_id)`
with a caller-provided id: build `Topic(topic_name)` (no redis) as the
default, fetch the existing topic otherwise, `yield topic.add_subscriber`.
On a raise the registry assignment and the reverse-index update are
skipped — but a pre-existing topic object was mutated in place, so its
mutation is visible through the registry.  On success the topic is stored
and the subscription is recorded in the connection's reverse index. -/
def TopicsManager.add_subscriber (env : BrokerEnv) (w : World) (tn : TopicName)
    (cid : ConnId) (sid : SubscriptionId) : MgrSubResult :=
  let found := lookupA w.topics tn
  let topic := found.getD (Topic.init tn none)
  let r := Topic.add_subscriber env topic sid cid
  match r.error with
  | some e =>
      { world :=
          { w with topics :=
              match found with
              | some _ => insertA w.topics tn r.topic
              | none => w.topics }
        calls := r.calls
        error := some e
        returnedId := none }
  | none =>
      { world :=
          { topics := insertA w.topics tn r.topic
            conns := modifyConn w.conns cid (fun c => c.add_subscription_channel sid tn) }
        calls := r.calls
        error := none
        returnedId := some sid }

/-- `TopicsManager.remove_subscriber(topic_name, subscription_id)`: no-op
when the topic or the id is absent; otherwise pop the subscriber entry and
clear the connection's reverse-index entry for the topic. -/
def TopicsManager.remove_subscriber (w : World) (tn : TopicName)
    (sid : SubscriptionId) : World :=
  match lookupA w.topics tn with
  | none => w
  | some t =>
      match lookupA t.subscribers sid with
      | none => w
      | some cid =>
          { topics := insertA w.topics tn { t with subscribers := eraseA t.subscribers sid }
            conns := modifyConn w.conns cid (fun c => c.remove_subscription_channel tn) }

/-- `TopicsManager.add_publisher(topic_name, connection, subscription_id)`
with a caller-provided id: pure in-memory registration. -/
def TopicsManager.add_publisher (w : World) (tn : TopicName) (cid : ConnId)
    (sid : SubscriptionId) : World :=
  let topic := (lookupA w.topics tn).getD (Topic.init tn none)
  { topics := insertA w.topics tn { topic with publishers := insertA topic.publishers sid cid }
    conns := modifyConn w.conns cid (fun c => c.add_publishing_channel sid tn) }

/-- `TopicsManager.remove_publisher(topic_name, subscription_id)`:
symmetric to `remove_subscriber`. -/
def TopicsManager.remove_publisher (w : World) (tn : TopicName)
    (sid : SubscriptionId) : World :=
  match lookupA w.topics tn with
  | none => w
  | some t =>
      match lookupA t.publishers sid with
      | none => w
      | some cid =>
          { topics := insertA w.topics tn { t with publishers := eraseA t.publishers sid }
            conns := modifyConn w.conns cid (fun c => c.remove_publishing_channel tn) }

/-- One pass of `TopicsManager.remove_connection`: for each
`(topic_name, subscription_id)` in the connection's publisher reverse
index, `self.get(topic_name)` and `topic.publishers.pop(sid, None)` —
`AttributeError` when the topic is absent (`None.publishers`). -/
def popPublisherRefs : List (TopicName × Topic) → List (TopicName × SubscriptionId) →
    Except Err (List (TopicName × Topic))
  | topics, [] => Except.ok topics
  | topics, (tn, sid) :: rest =>
      match lookupA topics tn with
      | none => Except.error Err.attributeError
      | some t =>
          popPublisherRefs (insertA topics tn { t with publishers := eraseA t.publishers sid })
            rest

/-- Second pass of `TopicsManager.remove_connection`, over the subscriber
reverse index. -/
def popSubscriberRefs : List (TopicName × Topic) → List (TopicName × SubscriptionId) →
    Except Err (List (TopicName × Topic))
  | topics, [] => Except.ok topics
  | topics, (tn, sid) :: rest =>
      match lookupA topics tn with
      | none => Except.error Err.attributeError
      | some t =>
          popSubscriberRefs
            (insertA topics tn { t with subscribers := eraseA t.subscribers sid }) rest

/-- `TopicsManager.remove_connection(connection)`: iterate only the
connection's own reverse index — the publisher entries, then the
subscriber entries — popping the referenced registrations. -/
def TopicsManager.remove_connection (topics : List (TopicName × Topic))
    (c : Connection) : Except Err (List (TopicName × Topic)) :=
  match popPublisherRefs topics c.publisherTopics with
  | Except.error e => Except.error e
  | Except.ok topics1 => popSubscriberRefs topics1 c.subscriberTopics

/-- `TopicsManager.remove_connection` acting on a `World`: it reads the
connection's reverse index and mutates only the topics registry; the
connection objects themselves are untouched. -/
def TopicsManager.remove_connection_w (w : World) (cid : ConnId) : Except Err World :=
  match lookupA w.conns cid with
  | none => Except.error Err.attributeError
  | some c =>
      match TopicsManager.remove_connection w.topics c with
      | Except.error e => Except.error e
      | Except.ok ts => Except.ok { w with topics := ts }

/-- `TopicsManager.get_connection(topic_name, subscription_id)`:
`self[topic_name]` (KeyError when the topic is absent), then the
subscriber entry if any, else the publisher entry, else `None`. -/
def TopicsManager.get_connection (topics : List (TopicName × Topic)) (tn : TopicName)
    (sid : SubscriptionId) : Except Err (Option ConnId) :=
  match lookupA topics tn with
  | none => Except.error Err.keyError
  | some t =>
      match lookupA t.subscribers sid with
      | some cid => Except.ok (some cid)
      | none => Except.ok (lookupA t.publishers sid)

/-- Registered subscriber connection of topic `tn` under `sid`, read
through the registry. -/
def subLookup (topics : List (TopicName × Topic)) (tn : TopicName)
    (sid : SubscriptionId) : Option ConnId :=
  match lookupA topics tn with
  | none => none
  | some t => lookupA t.subscribers sid

/-- Registered publisher connection of topic `tn` under `sid`, read
through the registry. -/
def pubLookup (topics : List (TopicName × Topic)) (tn : TopicName)
    (sid : SubscriptionId) : Option ConnId :=
  match lookupA topics tn with
  | none => none
  | some t => lookupA t.publishers sid

/-! Concrete states used to evaluate the theorems on explicit inputs. -/

/-- Broker fully available. -/
def envUp : BrokerEnv := { connectOk := true, subscribeOk := true, publishOk := true }

/-- Broker refuses the pubsub connect. -/
def envDown : BrokerEnv := { connectOk := false, subscribeOk := true, publishOk := true }

/-- A fresh connection with an open websocket and empty reverse index. -/
def connA : Connection := { subscriberTopics := [], publisherTopics := [], websocketOpen := true }

/-- A bridged topic as produced by `Topic("chat", redis=...)`. -/
def chatBridged : Topic := Topic.init "chat" (some "redis")

/-- A registry holding the bridged topic, plus three live connections. -/
def worldB : World :=
  { topics := [("chat", chatBridged)], conns := [(1, connA), (2, connA), (3, connA)] }

/-- First subscribe attempt against an unavailable broker. -/
def c2First : MgrSubResult := TopicsManager.add_subscriber envDown worldB "chat" 1 10

/-- Second subscribe attempt on the same topic after the broker is back. -/
def c2Second : MgrSubResult := TopicsManager.add_subscriber envUp c2First.world "chat" 2 11

/-- A bridged topic whose subscribe channel object exists but is dead. -/
def chatDead : Topic := { chatBridged with subscriberConnection := SubChannel.present false }

/-- An unbridged topic with two local subscribers. -/
def chatLocal : Topic := { Topic.init "chat" none with subscribers := [(10, 1), (11, 2)] }

/-- A bridged topic with two local subscribers and a connected receive loop. -/
def chatLive : Topic :=
  { chatBridged with subscribers := [(10, 1), (11, 2)],
                     subscriberConnection := SubChannel.present true }

/-- Connection table for the two subscribers of `chatLocal` / `chatLive`. -/
def connsAB : List (ConnId × Connection) := [(1, connA), (2, connA)]

/-- A broadcast published locally by connection 1 on this node. -/
def msgHi : BroadcastMessage :=
  { topic_name := "chat", event_payload := "hi", publisher_connection_id := some 1,
    publisher_node_id := "n1" }

/-- A broadcast that arrived from another broker process. -/
def msgRemote : BroadcastMessage :=
  { topic_name := "chat", event_payload := "hello", publisher_connection_id := none,
    publisher_node_id := "n2" }

/-- A broadcast that this node itself pushed through the broker. -/
def msgSelf : BroadcastMessage :=
  { topic_name := "chat", event_payload := "hello", publisher_connection_id := none,
    publisher_node_id := "n1" }

/-- A broadcast whose decoded topic does not match the channel it
arrived on. -/
def msgWrongTopic : BroadcastMessage :=
  { topic_name := "other", event_payload := "x", publisher_connection_id := none,
    publisher_node_id := "n2" }

/-- Registry with one topic carrying both a subscriber and a publisher
entry. -/
def topicsC7 : List (TopicName × Topic) :=
  [("chat", { Topic.init "chat" none with subscribers := [(10, 1)], publishers := [(20, 2)] })]

/-- A connection registered as subscriber of "chat" (id 10) and publisher
of "news" (id 20). -/
def connC8 : Connection :=
  { subscriberTopics := [("chat", 10)], publisherTopics := [("news", 20)], websocketOpen := true }

/-- Registry where connection 1 (= `connC8`) and connection 2 both hold
registrations. -/
def topicsC8 : List (TopicName × Topic) :=
  [("chat", { Topic.init "chat" none with subscribers := [(10, 1), (12, 2)] }),
   ("news", { Topic.init "news" none with publishers := [(20, 1), (21, 2)] })]

/-- World pairing `topicsC8` with its two connections. -/
def worldC10 : World := { topics := topicsC8, conns := [(1, connC8), (2, connA)] }

/-- The world `worldC10` after connection 1 (= `connC8`) is removed:
its subscriber entry in "chat" and publisher entry in "news" are gone,
everything else untouched. -/
def worldC10removed : World :=
  { topics := [("chat", { Topic.init "chat" none with subscribers := [(12, 2)] }),
               ("news", { Topic.init "news" none with publishers := [(21, 2)] })]
    conns := [(1, connC8), (2, connA)] }

/-! Association-list lemmas. -/

theorem lookupA_insertA {α β : Type} [DecidableEq α] (m : List (α × β)) (k k' : α) (v : β) :
    lookupA (insertA m k v) k' = if k = k' then some v else lookupA m k' := by
  induction m with
  | nil => simp [insertA, lookupA]
  | cons p rest ih =>
      obtain ⟨a, b⟩ := p
      by_cases hak : a = k
      · subst hak
        by_cases hk' : a = k' <;> simp [insertA, lookupA, hk']
      · by_cases hk' : a = k'
        · subst hk'
          have hk : ¬ k = a := fun h => hak h.symm
          simp [insertA, lookupA, hak, hk]
        · simp [insertA, lookupA, hak, hk', ih]

theorem lookupA_eraseA {α β : Type} [DecidableEq α] (m : List (α × β)) (k k' : α) :
    lookupA (eraseA m k) k' = if k' = k then none else lookupA m k' := by
  induction m with
  | nil => simp [eraseA, lookupA]
  | cons p rest ih =>
      obtain ⟨a, b⟩ := p
      by_cases hak : a = k
      · subst hak
        have hstep : eraseA ((a, b) :: rest) a = eraseA rest a := by
          simp [eraseA]
        rw [hstep, ih]
        by_cases hk' : k' = a
        · simp [hk']
        · have hak' : ¬ a = k' := fun h => hk' h.symm
          simp [lookupA, hk', hak']
      · have hstep : eraseA ((a, b) :: rest) k = (a, b) :: eraseA rest k := by
          simp [eraseA, hak]
        rw [hstep]
        by_cases hk' : a = k'
        · subst hk'
          have h1 : ¬ a = k := hak
          simp [lookupA, h1]
        · simp [lookupA, hk', ih]

theorem isSome_lookupA_insertA {α β : Type} [DecidableEq α] (m : List (α × β)) (k k' : α)
    (v : β) : (lookupA (insertA m k v) k').isSome
      = (if k = k' then true else (lookupA m k').isSome) := by
  rw [lookupA_insertA]
  by_cases h : k = k' <;> simp [h]

theorem lookupA_isSome_of_mem_keys {α β : Type} [DecidableEq α] (m : List (α × β)) (k : α)
    (h : k ∈ m.map Prod.fst) : (lookupA m k).isSome = true := by
  induction m with
  | nil => simp at h
  | cons p rest ih =>
      obtain ⟨a, b⟩ := p
      by_cases hak : a = k
      · simp [lookupA, hak]
      · have : k ∈ rest.map Prod.fst := by
          simp at h
          rcases h with h | h
          · exact absurd h.symm hak
          · simpa using h
        simp [lookupA, hak, ih this]

theorem lookupA_eq_of_mem_of_nodup {α β : Type} [DecidableEq α] (m : List (α × β))
    (p : α × β) (hm : p ∈ m) (hnd : (m.map Prod.fst).Nodup) :
    lookupA m p.1 = some p.2 := by
  induction m with
  | nil => simp at hm
  | cons q rest ih =>
      obtain ⟨a, b⟩ := q
      rcases List.mem_cons.mp hm with h | h
      · subst h
        simp [lookupA]
      · have hnd' : (rest.map Prod.fst).Nodup := (List.nodup_cons.mp hnd).2
        have ha : a ∉ rest.map Prod.fst := by
          simpa using (List.nodup_cons.mp hnd).1
        have hap : ¬ a = p.1 := by
          intro hEq
          exact ha (hEq ▸ List.mem_map_of_mem Prod.fst h)
        simp [lookupA, hap, ih h hnd']

/-! `modifyConn` lemmas. -/

theorem lookupA_modifyConn_self (conns : List (ConnId × Connection)) (cid : ConnId)
    (f : Connection → Connection) (c : Connection) (h : lookupA conns cid = some c) :
    lookupA (modifyConn conns cid f) cid = some (f c) := by
  simp [modifyConn, h, lookupA_insertA]

theorem lookupA_modifyConn_ne (conns : List (ConnId × Connection)) (cid x : ConnId)
    (f : Connection → Connection) (h : x ≠ cid) :
    lookupA (modifyConn conns cid f) x = lookupA conns x := by
  unfold modifyConn
  cases hc : lookupA conns cid with
  | none => rfl
  | some c =>
      rw [lookupA_insertA]
      rw [if_neg (by intro hEq; exact h hEq.symm)]

theorem isSome_modifyConn (conns : List (ConnId × Connection)) (cid x : ConnId)
    (f : Connection → Connection) :
    (lookupA (modifyConn conns cid f) x).isSome = (lookupA conns x).isSome := by
  by_cases hx : x = cid
  · subst hx
    cases hc : lookupA conns x with
    | none => simp [modifyConn, hc]
    | some c => simp [lookupA_modifyConn_self conns x f c hc, hc]
  · rw [lookupA_modifyConn_ne conns cid x f hx]

/-- Full characterisation of the `_drop_subscribers` loop: over a
duplicate-free snapshot of subscription ids all present in the map, the
loop succeeds, leaves exactly the unlisted subscriptions, preserves the
connection-table domain, preserves already-closed websockets, and closes
the websocket of every listed subscriber. -/
theorem drop_loop_spec (sids : List SubscriptionId) :
    ∀ (t : Topic) (conns : List (ConnId × Connection)),
    sids.Nodup →
    (∀ sid ∈ sids, (lookupA t.subscribers sid).isSome = true) →
    ∃ t' conns', Topic.drop_loop t conns sids = Except.ok (t', conns') ∧
      t'.subscribers = t.subscribers.filter (fun p => decide (p.1 ∉ sids)) ∧
      (∀ cid, (lookupA conns' cid).isSome = (lookupA conns cid).isSome) ∧
      (∀ cid c, lookupA conns cid = some c → c.websocketOpen = false →
        ∃ c', lookupA conns' cid = some c' ∧ c'.websocketOpen = false) ∧
      (∀ sid ∈ sids, ∀ cid, lookupA t.subscribers sid = some cid →
        (lookupA conns cid).isSome = true →
        ∃ c', lookupA conns' cid = some c' ∧ c'.websocketOpen = false) := by
  induction sids with
  | nil =>
      intro t conns _ _
      exact ⟨t, conns, rfl, by simp, fun _ => rfl, fun cid c h hw => ⟨c, h, hw⟩, by simp⟩
  | cons sid0 rest ih =>
      intro t conns hnd hpres
      obtain ⟨cid0, hcid0⟩ : ∃ c, lookupA t.subscribers sid0 = some c := by
        have hi := hpres sid0 (List.mem_cons_self _ _)
        cases h : lookupA t.subscribers sid0 with
        | none => rw [h] at hi; simp at hi
        | some c => exact ⟨c, rfl⟩
      have hs0 : sid0 ∉ rest := (List.nodup_cons.mp hnd).1
      have hndr : rest.Nodup := (List.nodup_cons.mp hnd).2
      have hstep : Topic.drop_loop t conns (sid0 :: rest) =
          Topic.drop_loop { t with subscribers := eraseA t.subscribers sid0 }
            (modifyConn (modifyConn conns cid0
                (fun c => c.remove_subscription_channel t.name))
              cid0 Connection.closeWebsocket) rest := by
        simp [Topic.drop_loop, Topic.remove_subscriber, hcid0]
      have hpres1 : ∀ sid ∈ rest,
          (lookupA (eraseA t.subscribers sid0) sid).isSome = true := by
        intro sid hsid
        have hne : sid ≠ sid0 := fun h => hs0 (h ▸ hsid)
        rw [lookupA_eraseA, if_neg hne]
        exact hpres sid (List.mem_cons_of_mem _ hsid)
      obtain ⟨t', conns', heq, hsubs, hdom, hclosedpres, hcloses⟩ :=
        ih { t with subscribers := eraseA t.subscribers sid0 }
          (modifyConn (modifyConn conns cid0
              (fun c => c.remove_subscription_channel t.name))
            cid0 Connection.closeWebsocket) hndr hpres1
      refine ⟨t', conns', by rw [hstep]; exact heq, ?_, ?_, ?_, ?_⟩
      · rw [hsubs]
        show List.filter _ (List.filter _ t.subscribers) = _
        rw [List.filter_filter]
        congr 1
        funext p
        by_cases h0 : p.1 = sid0 <;> by_cases hr : p.1 ∈ rest <;>
          simp [h0, hr, List.mem_cons]
      · intro cid
        rw [hdom cid, isSome_modifyConn, isSome_modifyConn]
      · intro cid c hc hw
        by_cases h : cid = cid0
        · subst h
          have h1 := lookupA_modifyConn_self conns cid
            (fun c => c.remove_subscription_channel t.name) c hc
          have h2 := lookupA_modifyConn_self _ cid Connection.closeWebsocket _ h1
          exact hclosedpres cid _ h2 rfl
        · have h1 : lookupA (modifyConn (modifyConn conns cid0
              (fun c => c.remove_subscription_channel t.name))
              cid0 Connection.closeWebsocket) cid = lookupA conns cid := by
            rw [lookupA_modifyConn_ne _ _ _ _ h, lookupA_modifyConn_ne _ _ _ _ h]
          exact hclosedpres cid c (h1.trans hc) hw
      · intro sid hsid cid hlook hsome
        rcases List.mem_cons.mp hsid with h | h
        · subst h
          rw [hcid0] at hlook
          have hcc : cid0 = cid := by injection hlook
          subst hcc
          obtain ⟨c, hc⟩ : ∃ c, lookupA conns cid0 = some c := by
            cases hx : lookupA conns cid0 with
            | none => rw [hx] at hsome; simp at hsome
            | some c => exact ⟨c, rfl⟩
          have h1 := lookupA_modifyConn_self conns cid0
            (fun c => c.remove_subscription_channel t.name) c hc
          have h2 := lookupA_modifyConn_self _ cid0 Connection.closeWebsocket _ h1
          exact hclosedpres cid0 _ h2 rfl
        · have hne : sid ≠ sid0 := fun hEq => hs0 (hEq ▸ h)
          have hl1 : lookupA (eraseA t.subscribers sid0) sid = some cid := by
            rw [lookupA_eraseA, if_neg hne]; exact hlook
          have hsome2 : (lookupA (modifyConn (modifyConn conns cid0
              (fun c => c.remove_subscription_channel t.name))
              cid0 Connection.closeWebsocket) cid).isSome = true := by
            rw [isSome_modifyConn, isSome_modifyConn]; exact hsome
          exact hcloses sid h cid hl1 hsome2

/-- Characterisation of the publisher pass of `remove_connection`: it
succeeds when every referenced topic exists, erases exactly the referenced
publisher registrations, and touches nothing else. -/
theorem popPublisherRefs_spec (idx : List (TopicName × SubscriptionId)) :
    ∀ topics : List (TopicName × Topic),
    (∀ e ∈ idx, (lookupA topics e.1).isSome = true) →
    ∃ topics1, popPublisherRefs topics idx = Except.ok topics1 ∧
      (∀ tn, (lookupA topics1 tn).isSome = (lookupA topics tn).isSome) ∧
      (∀ tn sid, subLookup topics1 tn sid = subLookup topics tn sid) ∧
      (∀ tn sid, pubLookup topics1 tn sid =
        if (tn, sid) ∈ idx then none else pubLookup topics tn sid) := by
  induction idx with
  | nil =>
      intro topics _
      exact ⟨topics, rfl, fun _ => rfl, fun _ _ => rfl, by simp⟩
  | cons e rest ih =>
      obtain ⟨tn0, sid0⟩ := e
      intro topics hpres
      obtain ⟨t0, ht0⟩ : ∃ t, lookupA topics tn0 = some t := by
        have hi := hpres (tn0, sid0) (List.mem_cons_self _ _)
        cases h : lookupA topics tn0 with
        | none => rw [h] at hi; simp at hi
        | some t => exact ⟨t, rfl⟩
      have hstep : popPublisherRefs topics ((tn0, sid0) :: rest) =
          popPublisherRefs
            (insertA topics tn0 { t0 with publishers := eraseA t0.publishers sid0 }) rest := by
        simp [popPublisherRefs, ht0]
      have hdom0 : ∀ tn, (lookupA (insertA topics tn0
          { t0 with publishers := eraseA t0.publishers sid0 }) tn).isSome
          = (lookupA topics tn).isSome := by
        intro tn
        rw [isSome_lookupA_insertA]
        by_cases h : tn0 = tn
        · subst h; simp [ht0]
        · simp [h]
      have hpres1 : ∀ e ∈ rest, (lookupA (insertA topics tn0
          { t0 with publishers := eraseA t0.publishers sid0 }) e.1).isSome = true := by
        intro e he
        rw [hdom0]
        exact hpres e (List.mem_cons_of_mem _ he)
      obtain ⟨topics1, heq, hdom, hsub, hpub⟩ := ih _ hpres1
      refine ⟨topics1, by rw [hstep]; exact heq, ?_, ?_, ?_⟩
      · intro tn
        rw [hdom tn, hdom0 tn]
      · intro tn sid
        rw [hsub tn sid]
        by_cases h : tn0 = tn
        · subst h
          simp [subLookup, lookupA_insertA, ht0]
        · simp [subLookup, lookupA_insertA, h]
      · intro tn sid
        rw [hpub tn sid]
        by_cases hmem : (tn, sid) ∈ rest
        · simp [hmem, List.mem_cons]
        · by_cases hhead : (tn, sid) = (tn0, sid0)
          · have h1 : tn = tn0 := congrArg Prod.fst hhead
            have h2 : sid = sid0 := congrArg Prod.snd hhead
            subst h1
            subst h2
            simp [hmem, List.mem_cons, pubLookup, lookupA_insertA, lookupA_eraseA]
          · have hmem' : (tn, sid) ∉ (tn0, sid0) :: rest := by
              simp [List.mem_cons, hhead, hmem]
            simp only [hmem, if_false, hmem', if_false]
            by_cases htn : tn0 = tn
            · subst htn
              have hsid : ¬ sid = sid0 := by
                intro hEq
                exact hhead (by rw [hEq])
              simp [pubLookup, lookupA_insertA, ht0, lookupA_eraseA, hsid]
            · simp [pubLookup, lookupA_insertA, htn]

/-- Characterisation of the subscriber pass of `remove_connection`,
symmetric to the publisher pass. -/
theorem popSubscriberRefs_spec (idx : List (TopicName × SubscriptionId)) :
    ∀ topics : List (TopicName × Topic),
    (∀ e ∈ idx, (lookupA topics e.1).isSome = true) →
    ∃ topics1, popSubscriberRefs topics idx = Except.ok topics1 ∧
      (∀ tn, (lookupA topics1 tn).isSome = (lookupA topics tn).isSome) ∧
      (∀ tn sid, pubLookup topics1 tn sid = pubLookup topics tn sid) ∧
      (∀ tn sid, subLookup topics1 tn sid =
        if (tn, sid) ∈ idx then none else subLookup topics tn sid) := by
  induction idx with
  | nil =>
      intro topics _
      exact ⟨topics, rfl, fun _ => rfl, fun _ _ => rfl, by simp⟩
  | cons e rest ih =>
      obtain ⟨tn0, sid0⟩ := e
      intro topics hpres
      obtain ⟨t0, ht0⟩ : ∃ t, lookupA topics tn0 = some t := by
        have hi := hpres (tn0, sid0) (List.mem_cons_self _ _)
        cases h : lookupA topics tn0 with
        | none => rw [h] at hi; simp at hi
        | some t => exact ⟨t, rfl⟩
      have hstep : popSubscriberRefs topics ((tn0, sid0) :: rest) =
          popSubscriberRefs
            (insertA topics tn0 { t0 with subscribers := eraseA t0.subscribers sid0 }) rest := by
        simp [popSubscriberRefs, ht0]
      have hdom0 : ∀ tn, (lookupA (insertA topics tn0
          { t0 with subscribers := eraseA t0.subscribers sid0 }) tn).isSome
          = (lookupA topics tn).isSome := by
        intro tn
        rw [isSome_lookupA_insertA]
        by_cases h : tn0 = tn
        · subst h; simp [ht0]
        · simp [h]
      have hpres1 : ∀ e ∈ rest, (lookupA (insertA topics tn0
          { t0 with subscribers := eraseA t0.subscribers sid0 }) e.1).isSome = true := by
        intro e he
        rw [hdom0]
        exact hpres e (List.mem_cons_of_mem _ he)
      obtain ⟨topics1, heq, hdom, hpub, hsub⟩ := ih _ hpres1
      refine ⟨topics1, by rw [hstep]; exact heq, ?_, ?_, ?_⟩
      · intro tn
        rw [hdom tn, hdom0 tn]
      · intro tn sid
        rw [hpub tn sid]
        by_cases h : tn0 = tn
        · subst h
          simp [pubLookup, lookupA_insertA, ht0]
        · simp [pubLookup, lookupA_insertA, h]
      · intro tn sid
        rw [hsub tn sid]
        by_cases hmem : (tn, sid) ∈ rest
        · simp [hmem, List.mem_cons]
        · by_cases hhead : (tn, sid) = (tn0, sid0)
          · have h1 : tn = tn0 := congrArg Prod.fst hhead
            have h2 : sid = sid0 := congrArg Prod.snd hhead
            subst h1
            subst h2
            simp [hmem, List.mem_cons, subLookup, lookupA_insertA, lookupA_eraseA]
          · have hmem' : (tn, sid) ∉ (tn0, sid0) :: rest := by
              simp [List.mem_cons, hhead, hmem]
            simp only [hmem, if_false, hmem', if_false]
            by_cases htn : tn0 = tn
            · subst htn
              have hsid : ¬ sid = sid0 := by
                intro hEq
                exact hhead (by rw [hEq])
              simp [subLookup, lookupA_insertA, ht0, lookupA_eraseA, hsid]
            · simp [subLookup, lookupA_insertA, htn]

/-- With a `none` exclusion key, local delivery reaches every subscriber. -/
theorem deliver_none (subs : List (SubscriptionId × ConnId)) (payload : String) :
    deliver_event_messages subs payload none = subs.map (fun p => (p.2, payload)) := by
  simp [deliver_event_messages]

/-- Delivery count under origin exclusion: with pairwise-distinct
subscriber connections, exactly the originator (when present) is skipped. -/
theorem deliver_length (subs : List (SubscriptionId × ConnId)) (payload : String) (o : ConnId) :
    (subs.map Prod.snd).Nodup →
    (deliver_event_messages subs payload (some o)).length =
      if o ∈ subs.map Prod.snd then subs.length - 1 else subs.length := by
  induction subs with
  | nil => intro _; simp [deliver_event_messages]
  | cons p rest ih =>
      intro h
      obtain ⟨s, c⟩ := p
      have hmap : ((s, c) :: rest).map Prod.snd = c :: rest.map Prod.snd := rfl
      rw [hmap] at h
      have h1 : c ∉ rest.map Prod.snd := (List.nodup_cons.mp h).1
      have h2 : (rest.map Prod.snd).Nodup := (List.nodup_cons.mp h).2
      by_cases hco : c = o
      · subst hco
        simp [deliver_event_messages]
        intro a b hab hEq
        exact h1 (by rw [hEq]; exact List.mem_map_of_mem Prod.snd hab)
      · have hoc : ¬ o = c := fun hEq => hco (Eq.symm hEq)
        have ihr := ih h2
        by_cases ho : o ∈ rest.map Prod.snd
        · have hpos : 0 < rest.length := by
            obtain ⟨a, ha, _⟩ := List.mem_map.mp ho
            exact List.length_pos_of_mem ha
          simp [deliver_event_messages, hoc, ho] at ihr ⊢
          rw [ihr]
          omega
        · simp [deliver_event_messages, hoc, ho] at ihr ⊢
          exact ihr

/-- A bridged topic whose subscribe-channel object already exists is
registered purely locally: `Topic.add_subscriber` makes no broker call. -/
theorem add_subscriber_nonabsent (env : BrokerEnv) (t : Topic) (sid : SubscriptionId)
    (cid : ConnId) (h : t.subscriberConnection ≠ SubChannel.absent) :
    Topic.add_subscriber env t sid cid =
      { topic := { t with subscribers := insertA t.subscribers sid cid }
        calls := []
        error := none
        armed := false } := by
  cases hsc : t.subscriberConnection with
  | absent => exact absurd hsc h
  | present b => cases hr : t.redisParams <;> simp [Topic.add_subscriber, hr, hsc]

/-- A topic with no redis parameters never talks to the broker on
subscribe. -/
theorem add_subscriber_none_params (env : BrokerEnv) (t : Topic) (sid : SubscriptionId)
    (cid : ConnId) (h : t.redisParams = none) :
    Topic.add_subscriber env t sid cid =
      { topic := { t with subscribers := insertA t.subscribers sid cid }
        calls := []
        error := none
        armed := false } := by
  cases hsc : t.subscriberConnection <;> simp [Topic.add_subscriber, h, hsc]

/-- Once the subscribe channel object exists, an entire sequence of
subscribe calls issues no broker call at all. -/
theorem subscribe_many_nonabsent (env : BrokerEnv)
    (reqs : List (SubscriptionId × ConnId)) :
    ∀ t : Topic, t.subscriberConnection ≠ SubChannel.absent →
      (Topic.subscribe_many env t reqs).2 = [] := by
  induction reqs with
  | nil => intro t _; rfl
  | cons r rest ih =>
      intro t h
      obtain ⟨sid, cid⟩ := r
      have hadd := add_subscriber_nonabsent env t sid cid h
      have hnext := ih { t with subscribers := insertA t.subscribers sid cid } h
      simp [Topic.subscribe_many, hadd, hnext]

/-- A topic with no redis parameters keeps them forever, so a sequence of
subscribe calls issues no broker call. -/
theorem subscribe_many_none_params (env : BrokerEnv)
    (reqs : List (SubscriptionId × ConnId)) :
    ∀ t : Topic, t.redisParams = none →
      (Topic.subscribe_many env t reqs).2 = [] := by
  induction reqs with
  | nil => intro t _; rfl
  | cons r rest ih =>
      intro t h
      obtain ⟨sid, cid⟩ := r
      have hadd := add_subscriber_none_params env t sid cid h
      have hnext := ih { t with subscribers := insertA t.subscribers sid cid } h
      simp [Topic.subscribe_many, hadd, hnext]

/-- The first subscribe call on a fresh bridged topic attempts the
bridge setup: it leaves the channel object in place (whatever the broker
answered) and issues a SUBSCRIBE exactly when the connect succeeded. -/
theorem add_subscriber_setup (env : BrokerEnv) (t : Topic) (sid : SubscriptionId)
    (cid : ConnId) (p : RedisParams) (hrp : t.redisParams = some p)
    (hsc : t.subscriberConnection = SubChannel.absent) :
    (∃ b, (Topic.add_subscriber env t sid cid).topic.subscriberConnection
        = SubChannel.present b) ∧
    countSubscribeCalls (Topic.add_subscriber env t sid cid).calls
      = (if env.connectOk then 1 else 0) := by
  cases hc : env.connectOk <;> cases hs : env.subscribeOk <;>
    simp [Topic.add_subscriber, hrp, hsc, hc, hs, countSubscribeCalls]

/-- Claim C1: whenever the broker subscription performed inside
`TopicsManager.add_subscriber` fails, the call raises
`RedisUnavailableError`, and afterwards the manager's registry still
contains an entry for the topic name.  (Failure implies the bridged topic
pre-existed in the registry, since the manager's own default
`Topic(topic_name)` has no bridge and cannot fail; the failing path then
keeps — and updates in place — the existing entry.) -/
theorem claim_c1_failed_subscribe (env : BrokerEnv) (w : World) (tn : TopicName)
    (cid : ConnId) (sid : SubscriptionId)
    (h : (TopicsManager.add_subscriber env w tn cid sid).error.isSome = true) :
    (TopicsManager.add_subscriber env w tn cid sid).error = some Err.redisUnavailable ∧
    (lookupA (TopicsManager.add_subscriber env w tn cid sid).world.topics tn).isSome
      = true := by
  cases hfound : lookupA w.topics tn with
  | none =>
      exfalso
      have hnone : (TopicsManager.add_subscriber env w tn cid sid).error = none := by
        simp [TopicsManager.add_subscriber, hfound, Topic.add_subscriber, Topic.init]
      rw [hnone] at h
      simp at h
  | some t0 =>
      cases herr : (Topic.add_subscriber env t0 sid cid).error with
      | none =>
          exfalso
          have hnone : (TopicsManager.add_subscriber env w tn cid sid).error = none := by
            simp [TopicsManager.add_subscriber, hfound, herr]
          rw [hnone] at h
          simp at h
      | some e =>
          have hkind : (Topic.add_subscriber env t0 sid cid).error = none ∨
              (Topic.add_subscriber env t0 sid cid).error = some Err.redisUnavailable := by
            cases hrp : t0.redisParams <;> cases hsc : t0.subscriberConnection <;>
              cases hc : env.connectOk <;> cases hsok : env.subscribeOk <;>
              simp [Topic.add_subscriber, hrp, hsc, hc, hsok]
          have he : e = Err.redisUnavailable := by
            rcases hkind with hk | hk
            · rw [herr] at hk; cases hk
            · rw [herr] at hk
              injection hk
          subst he
          constructor
          · simp [TopicsManager.add_subscriber, hfound, herr]
          · simp [TopicsManager.add_subscriber, hfound, herr, isSome_lookupA_insertA]

/-- Claim C1 witness: against an unavailable broker, subscribing to the
pre-existing bridged topic "chat" fails with `RedisUnavailableError` and
the registry still holds "chat". -/
theorem claim_c1_witness :
    (TopicsManager.add_subscriber envDown worldB "chat" 1 10).error
      = some Err.redisUnavailable ∧
    (lookupA (TopicsManager.add_subscriber envDown worldB "chat" 1 10).world.topics
      "chat").isSome = true :=
  claim_c1_failed_subscribe envDown worldB "chat" 1 10 (by decide)

/-- Claim C2 counterexample: after a first subscribe on the bridged topic
"chat" fails against a down broker, a second subscribe — with the broker
back up — issues NO broker call at all (no new channel, no connect, no
SUBSCRIBE) and silently succeeds, contrary to the claim that it
re-attempts the connection from scratch. -/
theorem claim_c2_counterexample :
    c2First.error = some Err.redisUnavailable ∧
    c2Second.calls = [] ∧
    c2Second.error = none := by decide

/-- Claim C2 (amended): after a failed bridge setup or receive-loop error
the channel object persists (it is never reset to `None`), so a subsequent
subscribe call on that topic object performs no broker interaction: it
registers the local subscriber and leaves the dead channel in place.
Re-attempting from scratch happens only through a fresh `Topic` object,
whose channel attribute is `None`. -/
theorem claim_c2_no_reconnect (env : BrokerEnv) (t : Topic) (sid : SubscriptionId)
    (cid : ConnId) (b : Bool) (hparams : t.redisParams.isSome = true)
    (hchan : t.subscriberConnection = SubChannel.present b) :
    (Topic.add_subscriber env t sid cid).calls = [] ∧
    (Topic.add_subscriber env t sid cid).topic.subscriberConnection
      = SubChannel.present b ∧
    lookupA (Topic.add_subscriber env t sid cid).topic.subscribers sid = some cid := by
  have hres := add_subscriber_nonabsent env t sid cid (by rw [hchan]; simp)
  rw [hres]
  refine ⟨rfl, hchan, ?_⟩
  rw [show ({ t with subscribers := insertA t.subscribers sid cid } : Topic).subscribers
      = insertA t.subscribers sid cid from rfl]
  rw [lookupA_insertA]
  simp

/-- Claim C2 witness: on the dead-channel topic, a subscribe with the
broker back up makes no call and registers the subscriber locally. -/
theorem claim_c2_witness :
    (Topic.add_subscriber envUp chatDead 12 3).calls = [] ∧
    (Topic.add_subscriber envUp chatDead 12 3).topic.subscriberConnection
      = SubChannel.present false ∧
    lookupA (Topic.add_subscriber envUp chatDead 12 3).topic.subscribers 12 = some 3 :=
  claim_c2_no_reconnect envUp chatDead 12 3 false (by decide) (by decide)

/-- Claim C4: a received envelope whose origin node id equals the local
node identity is never passed to local delivery, while one with a
different origin node id is delivered to every current local subscriber
with no exclusions. -/
theorem claim_c4_cross_node (localNode : NodeId) (t : Topic) (ch : TopicName)
    (msg : BroadcastMessage) (hch : ch = msg.topic_name) :
    (msg.publisher_node_id = localNode →
      Topic.on_event_message localNode t ch msg = Except.ok []) ∧
    (msg.publisher_node_id ≠ localNode →
      Topic.on_event_message localNode t ch msg
        = Except.ok (t.subscribers.map (fun p => (p.2, msg.event_payload)))) := by
  constructor
  · intro h
    simp [Topic.on_event_message, hch, h]
  · intro h
    simp [Topic.on_event_message, hch, h, deliver_none]

/-- Claim C4 witness: on node "n1", a self-originated envelope is
delivered to nobody and a remote-originated one to both subscribers. -/
theorem claim_c4_witness :
    Topic.on_event_message "n1" chatLocal "chat" msgSelf = Except.ok [] ∧
    Topic.on_event_message "n1" chatLocal "chat" msgRemote
      = Except.ok [(1, "hello"), (2, "hello")] := by
  constructor
  · exact (claim_c4_cross_node "n1" chatLocal "chat" msgSelf rfl).1 rfl
  · exact (claim_c4_cross_node "n1" chatLocal "chat" msgRemote rfl).2 (by decide)

/-- Claim C7 counterexample: on an empty registry, `get_connection` raises
`KeyError` (Python `self[topic_name]`) instead of returning nothing. -/
theorem claim_c7_counterexample :
    TopicsManager.get_connection ([] : List (TopicName × Topic)) "chat" 1
      = Except.error Err.keyError ∧
    TopicsManager.get_connection ([] : List (TopicName × Topic)) "chat" 1
      ≠ Except.ok none := by decide

/-- Claim C7 (amended): for an existing topic, `get_connection` returns
the connection under the id, checking subscribers before publishers, and
returns nothing when the id is absent from both maps; when the topic name
itself is absent from the registry it raises `KeyError` rather than
returning nothing. -/
theorem claim_c7_lookup (topics : List (TopicName × Topic)) (tn : TopicName)
    (sid : SubscriptionId) :
    (lookupA topics tn = none →
      TopicsManager.get_connection topics tn sid = Except.error Err.keyError) ∧
    (∀ t, lookupA topics tn = some t →
      ((∀ cid, lookupA t.subscribers sid = some cid →
          TopicsManager.get_connection topics tn sid = Except.ok (some cid)) ∧
       (lookupA t.subscribers sid = none →
          TopicsManager.get_connection topics tn sid
            = Except.ok (lookupA t.publishers sid)))) := by
  refine ⟨?_, ?_⟩
  · intro h
    simp [TopicsManager.get_connection, h]
  · intro t ht
    refine ⟨?_, ?_⟩
    · intro cid hc
      simp [TopicsManager.get_connection, ht, hc]
    · intro hn
      simp [TopicsManager.get_connection, ht, hn]

/-- Claim C7 witness: subscriber hit, publisher fallback, and the
KeyError case, on concrete registries. -/
theorem claim_c7_witness :
    TopicsManager.get_connection topicsC7 "chat" 10 = Except.ok (some 1) ∧
    TopicsManager.get_connection topicsC7 "chat" 20 = Except.ok (some 2) ∧
    TopicsManager.get_connection ([] : List (TopicName × Topic)) "news" 1
      = Except.error Err.keyError := by
  refine ⟨?_, ?_, ?_⟩
  · exact ((claim_c7_lookup topicsC7 "chat" 10).2 _ rfl).1 1 rfl
  · exact ((claim_c7_lookup topicsC7 "chat" 20).2 _ rfl).2 rfl
  · exact (claim_c7_lookup ([] : List (TopicName × Topic)) "news" 1).1 rfl

/-- Claim C3: on a topic with no bridge, `publish` delivers the event
payload synchronously to every current subscriber except the originator
(exactly N-1 deliveries when the originator is among the subscribers,
else N), makes no broker call, and returns without suspending. -/
theorem claim_c3_local_publish (env : BrokerEnv) (t : Topic) (msg : BroadcastMessage)
    (o : ConnId) (hb : t.publisherConnection = false)
    (ho : msg.publisher_connection_id = some o)
    (hnd : (t.subscribers.map Prod.snd).Nodup) :
    (Topic.publish env t msg).suspends = false ∧
    (Topic.publish env t msg).calls = [] ∧
    (Topic.publish env t msg).error = none ∧
    (Topic.publish env t msg).deliveries.length =
      (if o ∈ t.subscribers.map Prod.snd then t.subscribers.length - 1
       else t.subscribers.length) ∧
    (∀ p ∈ t.subscribers, p.2 ≠ o →
      (p.2, msg.event_payload) ∈ (Topic.publish env t msg).deliveries) ∧
    (∀ d ∈ (Topic.publish env t msg).deliveries, d.2 = msg.event_payload ∧ d.1 ≠ o) := by
  have hres : Topic.publish env t msg =
      { deliveries := deliver_event_messages t.subscribers msg.event_payload (some o)
        calls := []
        suspends := false
        error := none } := by
    simp [Topic.publish, hb, ho]
  rw [hres]
  refine ⟨rfl, rfl, rfl, ?_, ?_, ?_⟩
  · exact deliver_length t.subscribers msg.event_payload o hnd
  · intro p hp hpo
    refine List.mem_map.mpr ⟨p, ?_, rfl⟩
    refine List.mem_filter.mpr ⟨hp, ?_⟩
    simp
    exact fun hEq => hpo hEq.symm
  · intro d hd
    obtain ⟨p, hpf, hdp⟩ := List.mem_map.mp hd
    obtain ⟨_, hpred⟩ := List.mem_filter.mp hpf
    rw [← hdp]
    refine ⟨rfl, ?_⟩
    simp at hpred
    exact fun hEq => hpred hEq.symm

/-- Claim C3 witness: publisher connection 1 on the unbridged two-subscriber
topic: one delivery, no calls, no suspension. -/
theorem claim_c3_witness :
    (Topic.publish envUp chatLocal msgHi).suspends = false ∧
    (Topic.publish envUp chatLocal msgHi).calls = [] ∧
    (Topic.publish envUp chatLocal msgHi).error = none ∧
    (Topic.publish envUp chatLocal msgHi).deliveries.length =
      (if 1 ∈ chatLocal.subscribers.map Prod.snd then chatLocal.subscribers.length - 1
       else chatLocal.subscribers.length) ∧
    (∀ p ∈ chatLocal.subscribers, p.2 ≠ 1 →
      (p.2, msgHi.event_payload) ∈ (Topic.publish envUp chatLocal msgHi).deliveries) ∧
    (∀ d ∈ (Topic.publish envUp chatLocal msgHi).deliveries,
      d.2 = msgHi.event_payload ∧ d.1 ≠ 1) :=
  claim_c3_local_publish envUp chatLocal msgHi 1 (by decide) (by decide) (by decide)

/-- Claim C5: over any sequence of subscribe calls a topic issues at most
one broker SUBSCRIBE, and a fresh bridged topic receiving M ≥ 1 subscribe
calls while the broker accepts connections issues exactly one. -/
theorem claim_c5_single_subscribe (env : BrokerEnv) (t : Topic)
    (reqs : List (SubscriptionId × ConnId)) :
    countSubscribeCalls (Topic.subscribe_many env t reqs).2 ≤ 1 ∧
    (t.redisParams.isSome = true → t.subscriberConnection = SubChannel.absent →
      env.connectOk = true → reqs ≠ [] →
      countSubscribeCalls (Topic.subscribe_many env t reqs).2 = 1) := by
  have hmain : ∀ (p : RedisParams), t.redisParams = some p →
      t.subscriberConnection = SubChannel.absent →
      ∀ sid cid rest, reqs = (sid, cid) :: rest →
      countSubscribeCalls (Topic.subscribe_many env t reqs).2
        = (if env.connectOk then 1 else 0) := by
    intro p hp hsc sid cid rest hreqs
    subst hreqs
    obtain ⟨⟨b, hb⟩, hcount⟩ := add_subscriber_setup env t sid cid p hp hsc
    have hrest := subscribe_many_nonabsent env rest
      (Topic.add_subscriber env t sid cid).topic (by rw [hb]; simp)
    have hstep : (Topic.subscribe_many env t ((sid, cid) :: rest)).2
        = (Topic.add_subscriber env t sid cid).calls
          ++ (Topic.subscribe_many env (Topic.add_subscriber env t sid cid).topic rest).2 :=
      rfl
    rw [hstep, hrest, List.append_nil]
    exact hcount
  constructor
  · cases hsc : t.subscriberConnection with
    | present b =>
        rw [subscribe_many_nonabsent env reqs t (by rw [hsc]; simp)]
        simp [countSubscribeCalls]
    | absent =>
        cases hrp : t.redisParams with
        | none =>
            rw [subscribe_many_none_params env reqs t hrp]
            simp [countSubscribeCalls]
        | some p =>
            cases hreqs : reqs with
            | nil => simp [Topic.subscribe_many, countSubscribeCalls]
            | cons r rest =>
                obtain ⟨sid, cid⟩ := r
                rw [← hreqs, hmain p hrp hsc sid cid rest hreqs]
                cases env.connectOk <;> simp
  · intro h1 h2 h3 h4
    obtain ⟨p, hp⟩ : ∃ p, t.redisParams = some p := by
      cases hx : t.redisParams with
      | none => rw [hx] at h1; simp at h1
      | some p => exact ⟨p, rfl⟩
    cases hreqs : reqs with
    | nil => exact absurd hreqs h4
    | cons r rest =>
        obtain ⟨sid, cid⟩ := r
        rw [← hreqs, hmain p hp h2 sid cid rest hreqs, h3]
        simp

/-- Claim C5 witness: one subscribe call on the fresh bridged topic with
the broker up issues exactly one SUBSCRIBE, and never more than one. -/
theorem claim_c5_witness :
    countSubscribeCalls (Topic.subscribe_many envUp chatBridged [(10, 1)]).2 ≤ 1 ∧
    countSubscribeCalls (Topic.subscribe_many envUp chatBridged [(10, 1)]).2 = 1 :=
  ⟨(claim_c5_single_subscribe envUp chatBridged [(10, 1)]).1,
   (claim_c5_single_subscribe envUp chatBridged [(10, 1)]).2 (by decide) (by decide)
     (by decide) (by decide)⟩

/-- Claim C6: when the receive loop hits a transport error, afterwards the
topic's subscriber map is empty, every formerly-registered subscriber's
websocket has been closed, and no exception escapes the callback. -/
theorem claim_c6_drop_on_error (localNode : NodeId) (t : Topic)
    (conns : List (ConnId × Connection))
    (hnd : (t.subscribers.map Prod.fst).Nodup)
    (hc : ∀ p ∈ t.subscribers, (lookupA conns p.2).isSome = true) :
    (Topic.on_redis_message localNode t conns PopResult.connectionError).fatal = none ∧
    (Topic.on_redis_message localNode t conns
      PopResult.connectionError).topic.subscribers = [] ∧
    ∀ p ∈ t.subscribers, ∃ c',
      lookupA (Topic.on_redis_message localNode t conns PopResult.connectionError).conns p.2
        = some c' ∧ c'.websocketOpen = false := by
  have hpres : ∀ sid ∈ t.subscribers.map Prod.fst,
      (lookupA t.subscribers sid).isSome = true :=
    fun sid hs => lookupA_isSome_of_mem_keys _ _ hs
  obtain ⟨t', conns', heq, hsubs, hdom, hclosedpres, hcloses⟩ :=
    drop_loop_spec (t.subscribers.map Prod.fst)
      { t with subscriberConnection := SubChannel.present false } conns hnd hpres
  have hds : Topic.drop_subscribers
      { t with subscriberConnection := SubChannel.present false } conns
      = Except.ok (t', conns') := heq
  have hred : Topic.on_redis_message localNode t conns PopResult.connectionError
      = { topic := t', conns := conns', deliveries := [], rearmed := false,
          fatal := none } := by
    simp [Topic.on_redis_message, hds]
  rw [hred]
  refine ⟨rfl, ?_, ?_⟩
  · rw [hsubs]
    refine List.filter_eq_nil.mpr ?_
    intro a ha
    simp
    exact ⟨a.2, ha⟩
  · intro p hp
    have hmem : p.1 ∈ t.subscribers.map Prod.fst := List.mem_map_of_mem Prod.fst hp
    have hlook : lookupA t.subscribers p.1 = some p.2 :=
      lookupA_eq_of_mem_of_nodup _ p hp hnd
    exact hcloses p.1 hmem p.2 hlook (hc p hp)

/-- Claim C6 witness: transport error on the live two-subscriber topic. -/
theorem claim_c6_witness :
    (Topic.on_redis_message "n1" chatLive connsAB PopResult.connectionError).fatal = none ∧
    (Topic.on_redis_message "n1" chatLive connsAB
      PopResult.connectionError).topic.subscribers = [] ∧
    ∀ p ∈ chatLive.subscribers, ∃ c',
      lookupA (Topic.on_redis_message "n1" chatLive connsAB
        PopResult.connectionError).conns p.2 = some c' ∧ c'.websocketOpen = false :=
  claim_c6_drop_on_error "n1" chatLive connsAB (by decide) (by decide)

/-- Claim C9 counterexample: a topic-name mismatch does raise an
`AssertionError`, but the receive loop was already re-armed before the
assertion ran (the source re-arms first), so the loop is NOT aborted. -/
theorem claim_c9_counterexample :
    (Topic.on_redis_message "n1" chatLive connsAB
      (PopResult.message "message" "chat" msgWrongTopic)).fatal
        = some Err.assertionError ∧
    (Topic.on_redis_message "n1" chatLive connsAB
      (PopResult.message "message" "chat" msgWrongTopic)).rearmed = true := by decide

/-- Claim C9 (amended): on every received message the loop asserts the
decoded topic name equals the channel; a mismatch raises an
`AssertionError` that aborts processing of that message with no delivery
— but the next receive has already been armed, so the loop itself
continues; under the protocol invariant (channel = decoded topic name) the
assertion never fails. -/
theorem claim_c9_topic_assert (localNode : NodeId) (t : Topic)
    (conns : List (ConnId × Connection)) (ch : TopicName) (msg : BroadcastMessage)
    (hconn : t.subscriberConnection = SubChannel.present true) :
    (ch ≠ msg.topic_name →
      (Topic.on_redis_message localNode t conns
        (PopResult.message "message" ch msg)).fatal = some Err.assertionError ∧
      (Topic.on_redis_message localNode t conns
        (PopResult.message "message" ch msg)).deliveries = [] ∧
      (Topic.on_redis_message localNode t conns
        (PopResult.message "message" ch msg)).rearmed = true) ∧
    (ch = msg.topic_name →
      (Topic.on_redis_message localNode t conns
        (PopResult.message "message" ch msg)).fatal = none) := by
  have hreg : Topic.register_redis_callback t conns = Except.ok (t, conns, true) := by
    simp [Topic.register_redis_callback, hconn]
  constructor
  · intro hne
    simp [Topic.on_redis_message, hreg, Topic.on_event_message, hne]
  · intro heq
    by_cases hnode : msg.publisher_node_id = localNode <;>
      simp [Topic.on_redis_message, hreg, Topic.on_event_message, heq, hnode]

/-- Claim C9 witness: mismatching and matching envelopes on the live
topic. -/
theorem claim_c9_witness :
    (Topic.on_redis_message "n1" chatLive connsAB
      (PopResult.message "message" "other" msgRemote)).fatal
        = some Err.assertionError ∧
    (Topic.on_redis_message "n1" chatLive connsAB
      (PopResult.message "message" "chat" msgRemote)).fatal = none := by
  constructor
  · exact ((claim_c9_topic_assert "n1" chatLive connsAB "other" msgRemote
      (by decide)).1 (by decide)).1
  · exact (claim_c9_topic_assert "n1" chatLive connsAB "chat" msgRemote
      (by decide)).2 rfl

/-- Claim C10: `remove_connection` removes the connection's entries from
the referenced topics but leaves every connection object — in particular
its reverse index — untouched, never calling
`remove_subscription_channel` / `remove_publishing_channel`; by contrast
`remove_subscriber` and `remove_publisher` do clear the reverse-index
entry of the removed topic on the affected connection. -/
theorem claim_c10_reverse_index (w : World) (cid : ConnId) (tns tnp : TopicName)
    (sids sidp : SubscriptionId) :
    (∀ w', TopicsManager.remove_connection_w w cid = Except.ok w' →
      w'.conns = w.conns) ∧
    (∀ t c cid0, lookupA w.topics tns = some t →
      lookupA t.subscribers sids = some cid0 → lookupA w.conns cid0 = some c →
      lookupA (TopicsManager.remove_subscriber w tns sids).conns cid0
        = some (c.remove_subscription_channel tns)) ∧
    (∀ t c cid0, lookupA w.topics tnp = some t →
      lookupA t.publishers sidp = some cid0 → lookupA w.conns cid0 = some c →
      lookupA (TopicsManager.remove_publisher w tnp sidp).conns cid0
        = some (c.remove_publishing_channel tnp)) := by
  refine ⟨?_, ?_, ?_⟩
  · intro w' hw
    cases hc : lookupA w.conns cid with
    | none =>
        have hres : TopicsManager.remove_connection_w w cid
            = Except.error Err.attributeError := by
          simp [TopicsManager.remove_connection_w, hc]
        rw [hres] at hw
        cases hw
    | some c =>
        cases hrc : TopicsManager.remove_connection w.topics c with
        | error e =>
            have hres : TopicsManager.remove_connection_w w cid = Except.error e := by
              simp [TopicsManager.remove_connection_w, hc, hrc]
            rw [hres] at hw
            cases hw
        | ok ts =>
            have hres : TopicsManager.remove_connection_w w cid
                = Except.ok { w with topics := ts } := by
              simp [TopicsManager.remove_connection_w, hc, hrc]
            rw [hres] at hw
            injection hw with hbody
            rw [← hbody]
  · intro t c cid0 ht hs hcc
    simp [TopicsManager.remove_subscriber, ht, hs]
    exact lookupA_modifyConn_self w.conns cid0 _ c hcc
  · intro t c cid0 ht hs hcc
    simp [TopicsManager.remove_publisher, ht, hs]
    exact lookupA_modifyConn_self w.conns cid0 _ c hcc

/-- Claim C10 witness: removing connection 1 from `worldC10` leaves the
connection table (with its reverse indexes) untouched, while the targeted
`remove_subscriber` / `remove_publisher` clear the respective reverse-index
entries. -/
theorem claim_c10_witness :
    worldC10removed.conns = worldC10.conns ∧
    lookupA (TopicsManager.remove_subscriber worldC10 "chat" 10).conns 1
      = some (connC8.remove_subscription_channel "chat") ∧
    lookupA (TopicsManager.remove_publisher worldC10 "news" 20).conns 1
      = some (connC8.remove_publishing_channel "news") :=
  ⟨(claim_c10_reverse_index worldC10 1 "chat" "news" 10 20).1 worldC10removed (by decide),
   (claim_c10_reverse_index worldC10 1 "chat" "news" 10 20).2.1
     { Topic.init "chat" none with subscribers := [(10, 1), (12, 2)] } connC8 1
     (by decide) (by decide) (by decide),
   (claim_c10_reverse_index worldC10 1 "chat" "news" 10 20).2.2
     { Topic.init "news" none with publishers := [(20, 1), (21, 2)] } connC8 1
     (by decide) (by decide) (by decide)⟩

/-- Claim C8: for a connection whose reverse index references existing
topics, `remove_connection` succeeds, afterwards every id it owned is
gone from the referenced topic maps (so `get_connection` finds nothing for
those ids, given the id does not collide with a foreign registration in
the other role), and every registration outside the connection's reverse
index — in every topic — is unchanged; the operation only ever touches the
topics named in the reverse index. -/
theorem claim_c8_remove_connection (topics : List (TopicName × Topic)) (c : Connection)
    (hp : ∀ e ∈ c.publisherTopics, (lookupA topics e.1).isSome = true)
    (hs : ∀ e ∈ c.subscriberTopics, (lookupA topics e.1).isSome = true) :
    ∃ topics', TopicsManager.remove_connection topics c = Except.ok topics' ∧
      (∀ e ∈ c.subscriberTopics, subLookup topics' e.1 e.2 = none) ∧
      (∀ e ∈ c.publisherTopics, pubLookup topics' e.1 e.2 = none) ∧
      (∀ tn sid, (tn, sid) ∉ c.subscriberTopics →
        subLookup topics' tn sid = subLookup topics tn sid) ∧
      (∀ tn sid, (tn, sid) ∉ c.publisherTopics →
        pubLookup topics' tn sid = pubLookup topics tn sid) ∧
      (∀ e, (e ∈ c.subscriberTopics ∨ e ∈ c.publisherTopics) →
        (subLookup topics e.1 e.2 = none ∨ e ∈ c.subscriberTopics) →
        (pubLookup topics e.1 e.2 = none ∨ e ∈ c.publisherTopics) →
        TopicsManager.get_connection topics' e.1 e.2 = Except.ok none) := by
  obtain ⟨topics1, heq1, hdom1, hsub1, hpub1⟩ :=
    popPublisherRefs_spec c.publisherTopics topics hp
  have hs1 : ∀ e ∈ c.subscriberTopics, (lookupA topics1 e.1).isSome = true := by
    intro e he
    rw [hdom1]
    exact hs e he
  obtain ⟨topics2, heq2, hdom2, hpub2, hsub2⟩ :=
    popSubscriberRefs_spec c.subscriberTopics topics1 hs1
  have hrc : TopicsManager.remove_connection topics c = Except.ok topics2 := by
    simp [TopicsManager.remove_connection, heq1, heq2]
  have hsubFinal : ∀ tn sid, subLookup topics2 tn sid =
      if (tn, sid) ∈ c.subscriberTopics then none else subLookup topics tn sid := by
    intro tn sid
    rw [hsub2, hsub1]
  have hpubFinal : ∀ tn sid, pubLookup topics2 tn sid =
      if (tn, sid) ∈ c.publisherTopics then none else pubLookup topics tn sid := by
    intro tn sid
    rw [hpub2 tn sid, hpub1 tn sid]
  have hdomFinal : ∀ tn, (lookupA topics2 tn).isSome = (lookupA topics tn).isSome := by
    intro tn
    rw [hdom2, hdom1]
  refine ⟨topics2, hrc, ?_, ?_, ?_, ?_, ?_⟩
  · intro e he
    rw [hsubFinal]
    simp [he]
  · intro e he
    rw [hpubFinal]
    simp [he]
  · intro tn sid hmem
    rw [hsubFinal]
    simp [hmem]
  · intro tn sid hmem
    rw [hpubFinal]
    simp [hmem]
  · intro e hmem hsn hpn
    have hex : (lookupA topics e.1).isSome = true := by
      rcases hmem with h | h
      · exact hs e h
      · exact hp e h
    have hex2 : (lookupA topics2 e.1).isSome = true := by
      rw [hdomFinal]
      exact hex
    obtain ⟨t2, ht2⟩ : ∃ t, lookupA topics2 e.1 = some t := by
      cases hx : lookupA topics2 e.1 with
      | none => rw [hx] at hex2; simp at hex2
      | some t => exact ⟨t, rfl⟩
    have hsub2none : subLookup topics2 e.1 e.2 = none := by
      rw [hsubFinal]
      by_cases hm : (e.1, e.2) ∈ c.subscriberTopics
      · simp [hm]
      · simp [hm]
        rcases hsn with hval | hmem'
        · exact hval
        · exact absurd hmem' hm
    have hpub2none : pubLookup topics2 e.1 e.2 = none := by
      rw [hpubFinal]
      by_cases hm : (e.1, e.2) ∈ c.publisherTopics
      · simp [hm]
      · simp [hm]
        rcases hpn with hval | hmem'
        · exact hval
        · exact absurd hmem' hm
    have hsubN : lookupA t2.subscribers e.2 = none := by
      have hv := hsub2none
      simp [subLookup, ht2] at hv
      exact hv
    have hpubN : lookupA t2.publishers e.2 = none := by
      have hv := hpub2none
      simp [pubLookup, ht2] at hv
      exact hv
    simp [TopicsManager.get_connection, ht2, hsubN, hpubN]

/-- Claim C8 witness: removing `connC8` from `topicsC8`. -/
theorem claim_c8_witness :
    ∃ topics', TopicsManager.remove_connection topicsC8 connC8 = Except.ok topics' ∧
      (∀ e ∈ connC8.subscriberTopics, subLookup topics' e.1 e.2 = none) ∧
      (∀ e ∈ connC8.publisherTopics, pubLookup topics' e.1 e.2 = none) ∧
      (∀ tn sid, (tn, sid) ∉ connC8.subscriberTopics →
        subLookup topics' tn sid = subLookup topicsC8 tn sid) ∧
      (∀ tn sid, (tn, sid) ∉ connC8.publisherTopics →
        pubLookup topics' tn sid = pubLookup topicsC8 tn sid) ∧
      (∀ e, (e ∈ connC8.subscriberTopics ∨ e ∈ connC8.publisherTopics) →
        (subLookup topicsC8 e.1 e.2 = none ∨ e ∈ connC8.subscriberTopics) →
        (pubLookup topicsC8 e.1 e.2 = none ∨ e ∈ connC8.publisherTopics) →
        TopicsManager.get_connection topics' e.1 e.2 = Except.ok none) :=
  claim_c8_remove_connection topicsC8 connC8 (by decide) (by decide)
